import Mathlib

/-!
# Verification of the Telegram-Bot conversational core

A shallow embedding, in Lean 4, of the session / wizard / dispatcher /
rate-limiting code that appears in the repository documentation
(`src/unnamed/part_005`, `src/unnamed/part_006`, `src/docs/failures/README.md`),
together with proofs and refutations of the behavioural properties stated in
the specification.

JS numbers used as identifiers and millisecond timestamps are modelled as
`Int`; JS objects used as maps (`Map`, plain object fields) are modelled as
association lists; thrown exceptions are modelled with `Except`.
-/

namespace TelegramBot

/-- A value stored in a session data mapping: strings, integers, or the JS
`NaN` that `parseInt` produces on non-numeric input. -/
inductive Value where
  | str (s : String)
  | int (n : Int)
  | nan
  deriving DecidableEq, Repr

/-- Association-list lookup: the model of `Map.get` / object property read. -/
def lookupA {κ α : Type} [DecidableEq κ] : List (κ × α) → κ → Option α
  | [], _ => none
  | (k, v) :: rest, key => if k = key then some v else lookupA rest key

/-- Association-list removal: the model of `Map.delete`. -/
def eraseA {κ α : Type} [DecidableEq κ] : List (κ × α) → κ → List (κ × α)
  | [], _ => []
  | (k, v) :: rest, key => if k = key then eraseA rest key else (k, v) :: eraseA rest key

/-- Association-list overwrite: the model of `Map.set`. -/
def insertA {κ α : Type} [DecidableEq κ] (m : List (κ × α)) (k : κ) (v : α) : List (κ × α) :=
  (k, v) :: eraseA m k

theorem lookupA_insertA_self {κ α : Type} [DecidableEq κ] (m : List (κ × α)) (k : κ) (v : α) :
    lookupA (insertA m k v) k = some v := by
  simp [insertA, lookupA]

theorem lookupA_eraseA_ne {κ α : Type} [DecidableEq κ] (m : List (κ × α)) (k k' : κ)
    (h : k ≠ k') : lookupA (eraseA m k) k' = lookupA m k' := by
  induction m with
  | nil => rfl
  | cons p rest ih =>
    obtain ⟨pk, pv⟩ := p
    have h' : k' ≠ k := Ne.symm h
    by_cases hp : pk = k
    · have hpk' : pk ≠ k' := by rw [hp]; exact h
      simp [eraseA, lookupA, hp, hpk', ih, h]
    · by_cases hk2 : pk = k'
      · simp [eraseA, lookupA, hp, hk2, h']
      · simp [eraseA, lookupA, hp, hk2, ih]

theorem lookupA_insertA_ne {κ α : Type} [DecidableEq κ] (m : List (κ × α)) (k k' : κ) (v : α)
    (h : k ≠ k') : lookupA (insertA m k v) k' = lookupA m k' := by
  simp only [insertA, lookupA, if_neg h]
  exact lookupA_eraseA_ne m k k' h

theorem lookupA_eraseA_self {κ α : Type} [DecidableEq κ] (m : List (κ × α)) (k : κ) :
    lookupA (eraseA m k) k = none := by
  induction m with
  | nil => rfl
  | cons p rest ih =>
    obtain ⟨pk, pv⟩ := p
    by_cases hp : pk = k
    · simpa [eraseA, hp] using ih
    · simpa [eraseA, lookupA, hp] using ih

/-- The per-wizard progress record stored at `session.wizard`
(`src/unnamed/part_006`, Wizard pattern): the wizard name, the index of the
current step, and the data collected so far. -/
structure WizardState where
  name : String
  step : Nat
  data : List (String × Value)
  deriving DecidableEq, Repr

/-- A user session (`src/unnamed/part_006`): `state`/`data` as in the
in-memory session snippet, `lastActivity` in ms, the optional `wizard`
record of the Wizard pattern, and the optional `previousState` used by the
`/back` escape command. -/
structure Session where
  state : String
  data : List (String × Value)
  lastActivity : Int
  wizard : Option WizardState
  previousState : Option String
  deriving DecidableEq, Repr

/-- The fresh session created by `getSession` when no session exists:
`{ state: 'idle', data: {}, lastActivity: Date.now() }`. -/
def defaultSession (now : Int) : Session :=
  { state := "idle", data := [], lastActivity := now, wizard := none, previousState := none }

/-- The global in-memory `sessions` map, keyed by user id. -/
abbrev SessionMap := List (Int × Session)

/-- `getSession(userId)` of the in-memory snippet: returns the stored
session, creating (and storing) a default idle session when absent. -/
def getSession (m : SessionMap) (userId : Int) (now : Int) : SessionMap × Session :=
  match lookupA m userId with
  | some s => (m, s)
  | none => (insertA m userId (defaultSession now), defaultSession now)

/-- `clearSession(userId)`: `sessions.delete(userId)`. -/
def clearSession (m : SessionMap) (userId : Int) : SessionMap :=
  eraseA m userId

/-- An outbound effect produced by a handler: a `bot.sendMessage` text, a
`promptForState` re-prompt, a `showContextualHelp` call, a `showMainMenu`
call, or a wizard `onComplete` callback carrying the collected data. -/
inductive Action where
  | send (text : String)
  | promptState (state : String)
  | contextualHelp (state : String)
  | mainMenu
  | complete (data : List (String × Value))
  deriving DecidableEq, Repr

/-! ## Update deduplication (`src/docs/failures/README.md`)

The repository's duplicate-update guard is the fragment

```javascript
if (update.update_id <= lastProcessed) return;
lastProcessed = update.update_id;
```

followed by the rest of the webhook handler.  The guard state and the rest of
the handler are modelled explicitly; the continuation `handler` is arbitrary
and may throw (`Except.error`). -/

/-- An inbound update: its `update_id` watermark key, the sender, and the
message text. -/
structure Update where
  update_id : Int
  userId : Int
  text : String
  deriving DecidableEq, Repr

/-- The mutable state surrounding the deduplication fragment: the
`lastProcessed` watermark plus the sessions the handler may mutate. -/
structure BotState where
  lastProcessed : Int
  sessions : SessionMap
  deriving DecidableEq, Repr

/-- The webhook-handler skeleton of `docs/failures/README.md`: return (with
no actions) on a duplicate, otherwise advance `lastProcessed` FIRST and then
run the rest of the handler, which may throw.  A throw propagates and does
not roll back `lastProcessed`. -/
def handleWithDedup (handler : SessionMap → Update → Except String (SessionMap × List Action))
    (st : BotState) (u : Update) : BotState × Except String (List Action) :=
  if u.update_id ≤ st.lastProcessed then (st, Except.ok [])
  else
    match handler st.sessions u with
    | Except.ok (sess, acts) => ({ lastProcessed := u.update_id, sessions := sess }, Except.ok acts)
    | Except.error e => ({ st with lastProcessed := u.update_id }, Except.error e)

/-- A handler that always throws, used to exercise the failure path. -/
def failingHandlerEx : SessionMap → Update → Except String (SessionMap × List Action) :=
  fun _ _ => Except.error "handler exception"

/-- A trivial successful handler, used to exercise the success path. -/
def okHandlerEx : SessionMap → Update → Except String (SessionMap × List Action) :=
  fun s _ => Except.ok (s, [])

/-! ## Wizard pattern (`src/unnamed/part_006`, Multi-Step Flows) -/

/-- The maximal leading run of decimal digits. -/
def leadingDigits (l : List Char) : List Char := l.takeWhile Char.isDigit

/-- Numeric value of a digit run. -/
def digitsToNat (l : List Char) : Nat := l.foldl (fun a c => a * 10 + (c.toNat - 48)) 0

/-- JS `parseInt(input)` on the inputs this code feeds it: an optional sign
followed by decimal digits; `none` models `NaN` (no parsable prefix). -/
def jsParseInt (s : String) : Option Int :=
  match s.data with
  | '-' :: rest =>
    if (leadingDigits rest).isEmpty then none
    else some (-(digitsToNat (leadingDigits rest) : Int))
  | '+' :: rest =>
    if (leadingDigits rest).isEmpty then none
    else some ((digitsToNat (leadingDigits rest) : Int))
  | l =>
    if (leadingDigits l).isEmpty then none
    else some ((digitsToNat (leadingDigits l) : Int))

/-- JS object property assignment `data[field] = v`: overwrite in place when
the key exists, otherwise append (JS objects preserve insertion order). -/
def setField (d : List (String × Value)) (k : String) (v : Value) : List (String × Value) :=
  if (lookupA d k).isSome then d.map (fun q => if q.1 = k then (k, v) else q)
  else d ++ [(k, v)]

/-- One wizard step, as built by `addStep`: a prompt (possibly a function of
the collected data), a validator (`none` models the JS `true`, `some msg` an
error message), a transform, and the field name the value is stored under.
The `addStep` defaults are `validate: () => true` and `transform: v => v`. -/
structure Step where
  name : String
  prompt : List (String × Value) → String
  validate : String → List (String × Value) → Option String
  transform : String → Value
  field : String

/-- A wizard: its name and ordered step list.  The `onComplete` hook is
modelled as the emitted `Action.complete` carrying the collected data. -/
structure Wizard where
  name : String
  steps : List Step

/-- Body of `Wizard.handleInput` once the session has been loaded: `m1` is
the session map after `getSession`, `s` the loaded session.  `none` models
the `TypeError` thrown when `this.steps[session.wizard.step]` is undefined;
the code otherwise keeps the step index in range. -/
def Wizard.handleInputBody (w : Wizard) (m1 : SessionMap) (s : Session) (userId now : Int)
    (input : String) : Option (Bool × SessionMap × List Action) :=
  match s.wizard with
  | none => some (false, m1, [])
  | some wz =>
    if wz.name = w.name then
      match w.steps.get? wz.step with
      | none => none
      | some st =>
        match st.validate input wz.data with
        | some err => some (true, m1, [Action.send err])
        | none =>
          let data1 := setField wz.data st.field (st.transform input)
          if w.steps.length ≤ wz.step + 1 then
            some (true, insertA m1 userId { s with wizard := none, lastActivity := now },
              [Action.complete data1])
          else
            match w.steps.get? (wz.step + 1) with
            | none => none
            | some st2 =>
              some (true,
                insertA m1 userId
                  { s with wizard := some ⟨wz.name, wz.step + 1, data1⟩, lastActivity := now },
                [Action.send (st2.prompt data1)])
    else some (false, m1, [])

/-- `Wizard.handleInput(msg)`: load the session, return `false` when no
wizard of this name is active; otherwise validate the input against the
current step — on failure send the error message and change nothing, on
success store the transformed value, advance the step, and either prompt the
next step or finish the wizard (`delete session.wizard` + `onComplete`). -/
def Wizard.handleInput (w : Wizard) (m : SessionMap) (userId now : Int) (input : String) :
    Option (Bool × SessionMap × List Action) :=
  w.handleInputBody (getSession m userId now).1 (getSession m userId now).2 userId now input

/-- `Wizard.start(chatId, userId)`: install a fresh wizard record
`{ name, step: 0, data: {} }` on the session, save it, and prompt the first
step. -/
def Wizard.start (w : Wizard) (m : SessionMap) (userId now : Int) :
    Option (SessionMap × List Action) :=
  match w.steps.get? 0 with
  | none => none
  | some st =>
    some (insertA (getSession m userId now).1 userId
        { (getSession m userId now).2 with
            wizard := some ⟨w.name, 0, []⟩, lastActivity := now },
      [Action.send (st.prompt [])])

/-- Rendering of a data field inside a JS template literal; a missing field
prints as `undefined`. -/
def fieldToString (d : List (String × Value)) (k : String) : String :=
  match lookupA d k with
  | some (Value.str s) => s
  | some (Value.int n) => toString n
  | some Value.nan => "NaN"
  | none => "undefined"

/-- The `addStep` default validator `() => true`. -/
def defaultValidate : String → List (String × Value) → Option String := fun _ _ => none

/-- The `addStep` default transform `v => v`. -/
def defaultTransform : String → Value := Value.str

/-- The quantity validator of `orderWizard`. -/
def quantityValidate (input : String) (_ : List (String × Value)) : Option String :=
  match jsParseInt input with
  | none => some "Please enter a valid number"
  | some n =>
    if n < 1 then some "Please enter a valid number"
    else if 100 < n then some "Maximum 100 items"
    else none

/-- The quantity transform of `orderWizard`: `parseInt`. -/
def quantityTransform (input : String) : Value :=
  match jsParseInt input with
  | some n => Value.int n
  | none => Value.nan

/-- The address validator of `orderWizard`:
`input.length > 10 || 'Address too short'`. -/
def addressValidate (input : String) (_ : List (String × Value)) : Option String :=
  if 10 < input.length then none else some "Address too short"

/-- First `orderWizard` step: product (default validator and transform). -/
def orderProductStep : Step :=
  { name := "product",
    prompt := fun _ => "What product do you want to order?",
    validate := defaultValidate,
    transform := defaultTransform,
    field := "product" }

/-- Second `orderWizard` step: quantity. -/
def orderQuantityStep : Step :=
  { name := "quantity",
    prompt := fun d => "How many " ++ fieldToString d "product" ++ " do you want?",
    validate := quantityValidate,
    transform := quantityTransform,
    field := "quantity" }

/-- Third `orderWizard` step: delivery address. -/
def orderAddressStep : Step :=
  { name := "address",
    prompt := fun _ => "What is your delivery address?",
    validate := addressValidate,
    transform := defaultTransform,
    field := "address" }

/-- The `orderWizard` of `src/unnamed/part_006`: three steps — product,
quantity, address. -/
def orderWizard : Wizard :=
  { name := "order", steps := [orderProductStep, orderQuantityStep, orderAddressStep] }

/-! ## Escape hatches (`src/unnamed/part_006`, Escape Hatches) -/

/-- The reserved escape inputs. -/
def ESCAPE_COMMANDS : List String := ["/cancel", "/back", "/help", "/start"]

/-- `handleEscapeCommand(msg)`: `/cancel` clears the session, `/back` moves
to `session.previousState` when recorded, `/help` shows contextual help,
`/start` clears the session and shows the main menu. -/
def handleEscapeCommand (m : SessionMap) (userId now : Int) (text : String) :
    SessionMap × List Action :=
  if text = "/cancel" then
    (clearSession (getSession m userId now).1 userId, [Action.send "❌ Cancelled"])
  else if text = "/back" then
    match (getSession m userId now).2.previousState with
    | some prev =>
      (insertA (getSession m userId now).1 userId
          { (getSession m userId now).2 with state := prev },
        [Action.promptState prev])
    | none => ((getSession m userId now).1, [])
  else if text = "/help" then
    ((getSession m userId now).1, [Action.contextualHelp (getSession m userId now).2.state])
  else if text = "/start" then
    (clearSession (getSession m userId now).1 userId, [Action.mainMenu])
  else ((getSession m userId now).1, [])

/-- The `bot.on('message')` handler of the Escape Hatches snippet: escape
commands are checked first and short-circuit to `handleEscapeCommand`; any
other message goes to normal processing, here the wizard input handler the
Wizard pattern registers (`bot.on('message', msg => wizard.handleInput(msg))`). -/
def handleMessage (w : Wizard) (m : SessionMap) (userId now : Int) (text : String) :
    Option (SessionMap × List Action) :=
  if ESCAPE_COMMANDS.contains text then some (handleEscapeCommand m userId now text)
  else (w.handleInput m userId now text).map (fun r => (r.2.1, r.2.2))

/-- One inbound message of the order scenario: `/order` is registered via
`bot.onText` and starts the wizard; every other message goes through the
message handler. -/
def scenarioStep (m : SessionMap) (userId now : Int) (text : String) :
    Option (SessionMap × List Action) :=
  if text = "/order" then orderWizard.start m userId now
  else handleMessage orderWizard m userId now text

/-- Run a list of inbound messages; the result is the final session map
together with the actions emitted for the last message. -/
def runSteps (userId now : Int) : SessionMap → List String → Option (SessionMap × List Action)
  | m, [] => some (m, [])
  | m, t :: ts =>
    match scenarioStep m userId now t with
    | some r =>
      match ts with
      | [] => some r
      | _ :: _ => runSteps userId now r.1 ts
    | none => none

/-! ## Redis-backed session store (`src/unnamed/part_006`, Session with
Redis) and session timeouts (Timeouts & Resets) -/

/-- One Redis entry written by `saveSession`: the serialized session and the
write time (`setex` starts the TTL then). -/
structure StoredEntry where
  session : Session
  savedAt : Int
  deriving DecidableEq, Repr

/-- The Redis keyspace `session:userId`, keyed by user id. -/
abbrev RedisStore := List (Int × StoredEntry)

/-- `SESSION_TTL = 3600` seconds (1 hour). -/
def SESSION_TTL : Int := 3600

/-- Outcome of a session write as observed by the caller.  The Redis `setex`
of `saveSession` always resolves, so `conflict` is never produced by this
code; the constructor exists to state the optimistic-concurrency property
claimed of the store. -/
inductive SaveResult where
  | ok
  | conflict
  deriving DecidableEq, Repr

/-- `saveSession(userId, session)`: stamp `lastActivity = Date.now()` and
`setex` the key with `SESSION_TTL`, unconditionally overwriting whatever is
stored. -/
def saveSession (store : RedisStore) (userId : Int) (session : Session) (now : Int) :
    RedisStore × SaveResult :=
  (insertA store userId ⟨{ session with lastActivity := now }, now⟩, SaveResult.ok)

/-- The Redis-backed `getSession(userId)`: the key is alive while at most
`SESSION_TTL` seconds have passed since the `setex`; when alive the stored
session is parsed and returned, otherwise the default idle session. -/
def redisGetSession (store : RedisStore) (userId : Int) (now : Int) : Session :=
  match lookupA store userId with
  | some e => if now - e.savedAt ≤ SESSION_TTL * 1000 then e.session else defaultSession now
  | none => defaultSession now

/-- `SESSION_TIMEOUT = 30 * 60 * 1000` ms (30 minutes), from the Timeouts &
Resets section. -/
def SESSION_TIMEOUT : Int := 30 * 60 * 1000

/-- `isSessionExpired(session)`:
`Date.now() - session.lastActivity > SESSION_TIMEOUT`. -/
def isSessionExpired (s : Session) (now : Int) : Bool :=
  decide (SESSION_TIMEOUT < now - s.lastActivity)

/-- The expiry check at the top of the Timeouts message handler: an expired
session is cleared (the user is told to start again), so the next access
sees the default idle session; otherwise the session is kept and its
`lastActivity` refreshed. -/
def sessionOnAccess (s : Session) (now : Int) : Session :=
  if isSessionExpired s now then defaultSession now else { s with lastActivity := now }

/-! ## Flood wait handling and rate limiting (`src/unnamed/part_005`) -/

/-- The `FloodWaitHandler` state: the `waitUntil` map from chat id to the
timestamp (ms) until which sends to that chat must pause. -/
abbrev FloodState := List (Int × Int)

/-- The wait `execute` imposes before calling `fn` for `chatId`:
`waitUntil - Date.now()` while a wait period is active, else zero. -/
def floodWaitTime (h : FloodState) (chatId now : Int) : Int :=
  match lookupA h chatId with
  | some w => if now < w then w - now else 0
  | none => 0

/-- The 429 branch of `execute`:
`this.waitUntil.set(chatId, Date.now() + retryAfter * 1000)`. -/
def onFloodError (h : FloodState) (chatId retryAfter now : Int) : FloodState :=
  insertA h chatId (now + retryAfter * 1000)

/-- `TokenBucket` (part_005): capacity, current token count, refill rate in
tokens per second, and the time of the last refill in ms.  Token counts and
times are modelled as exact rationals. -/
structure TokenBucket where
  capacity : ℚ
  tokens : ℚ
  refillRate : ℚ
  lastRefill : ℚ
  deriving DecidableEq, Repr

/-- `new TokenBucket(capacity, refillRate)`: the bucket starts full. -/
def TokenBucket.init (capacity refillRate now : ℚ) : TokenBucket :=
  { capacity := capacity, tokens := capacity, refillRate := refillRate, lastRefill := now }

/-- `refill()` at time `now`: add `elapsed_seconds * refillRate` tokens,
capped at `capacity`. -/
def TokenBucket.refill (b : TokenBucket) (now : ℚ) : TokenBucket :=
  { b with tokens := min b.capacity (b.tokens + (now - b.lastRefill) / 1000 * b.refillRate),
           lastRefill := now }

/-- `take(count)` at time `now`: refill; when the bucket holds enough
tokens, consume them; otherwise sleep
`(count - tokens) / refillRate * 1000` ms (modelled as an exact sleep),
refill again at the wake-up time, and consume.  Returns the updated bucket
and the time at which the take completed. -/
def TokenBucket.take (b : TokenBucket) (count now : ℚ) : TokenBucket × ℚ :=
  let b1 := b.refill now
  if count ≤ b1.tokens then ({ b1 with tokens := b1.tokens - count }, now)
  else
    let waitTime := (count - b1.tokens) / b.refillRate * 1000
    let b2 := b1.refill (now + waitTime)
    ({ b2 with tokens := b2.tokens - count }, now + waitTime)

/-- The `chatLimiters` map of per-chat token buckets. -/
abbrev ChatLimiters := List (Int × TokenBucket)

/-- `getChatLimiter(chatId)`: fetch, or lazily create, the per-chat
`TokenBucket(1, 1)`. -/
def getChatLimiter (m : ChatLimiters) (chatId : Int) (now : ℚ) : ChatLimiters × TokenBucket :=
  match lookupA m chatId with
  | some b => (m, b)
  | none => (insertA m chatId (TokenBucket.init 1 1 now), TokenBucket.init 1 1 now)

end TelegramBot

namespace TelegramBot

/-- C1: once a first `handle` of update `u` has completed successfully,
handling the very same update again returns the empty action list and leaves
the whole state (watermark and sessions) unchanged. -/
theorem duplicate_update_idempotent
    (handler : SessionMap → Update → Except String (SessionMap × List Action))
    (st st1 : BotState) (u : Update) (acts : List Action)
    (h : handleWithDedup handler st u = (st1, Except.ok acts)) :
    handleWithDedup handler st1 u = (st1, Except.ok []) := by
  have hmark : u.update_id ≤ st1.lastProcessed := by
    unfold handleWithDedup at h
    by_cases hle : u.update_id ≤ st.lastProcessed
    · rw [if_pos hle] at h
      cases h
      exact hle
    · rw [if_neg hle] at h
      cases hh : handler st.sessions u with
      | ok p =>
        obtain ⟨sess, acts'⟩ := p
        rw [hh] at h
        cases h
        exact le_refl _
      | error e =>
        rw [hh] at h
        cases h
  unfold handleWithDedup
  rw [if_pos hmark]

/-- C1 witness: a concrete first call that succeeds, then the duplicate
second call is a no-op. -/
theorem duplicate_update_idempotent_witness :
    handleWithDedup okHandlerEx ⟨5, []⟩ ⟨5, 1, "hi"⟩ = (⟨5, []⟩, Except.ok []) :=
  duplicate_update_idempotent okHandlerEx ⟨0, []⟩ ⟨5, []⟩ ⟨5, 1, "hi"⟩ [] rfl

/-- C2 counterexample: with the repository's guard, an update whose handler
throws IS marked as processed (`lastProcessed` advances to its id before the
handler runs), and a redelivery of the same `update_id` is dropped (returns
`[]`) instead of being reprocessed — contradicting the claim that a failed
update is not marked as seen. -/
theorem record_after_success_counterexample :
    (handleWithDedup failingHandlerEx ⟨0, []⟩ ⟨5, 1, "hi"⟩).2 = Except.error "handler exception" ∧
    (handleWithDedup failingHandlerEx ⟨0, []⟩ ⟨5, 1, "hi"⟩).1.lastProcessed = 5 ∧
    handleWithDedup failingHandlerEx (handleWithDedup failingHandlerEx ⟨0, []⟩ ⟨5, 1, "hi"⟩).1
        ⟨5, 1, "hi"⟩
      = ((handleWithDedup failingHandlerEx ⟨0, []⟩ ⟨5, 1, "hi"⟩).1, Except.ok []) :=
  ⟨rfl, rfl, rfl⟩

/-- C2 amended: the code records `lastProcessed = update.update_id` before
invoking the handler, so an update whose handler raises an unrecoverable
error is still marked as seen, and a redelivery of the same `update_id` is
dropped (empty action list, no further processing) rather than reprocessed. -/
theorem record_before_handling
    (handler : SessionMap → Update → Except String (SessionMap × List Action))
    (st : BotState) (u : Update) (e : String)
    (hnew : st.lastProcessed < u.update_id)
    (hfail : handler st.sessions u = Except.error e) :
    handleWithDedup handler st u = ({ st with lastProcessed := u.update_id }, Except.error e) ∧
    handleWithDedup handler { st with lastProcessed := u.update_id } u
      = ({ st with lastProcessed := u.update_id }, Except.ok []) := by
  constructor
  · unfold handleWithDedup
    rw [if_neg (not_le.mpr hnew), hfail]
  · unfold handleWithDedup
    rw [if_pos (le_refl _)]

/-- C2 amended witness: concrete failing handler at update id 5. -/
theorem record_before_handling_witness :
    handleWithDedup failingHandlerEx ⟨0, []⟩ ⟨5, 1, "hi"⟩
      = (⟨5, []⟩, Except.error "handler exception") ∧
    handleWithDedup failingHandlerEx ⟨5, []⟩ ⟨5, 1, "hi"⟩ = (⟨5, []⟩, Except.ok []) :=
  record_before_handling failingHandlerEx ⟨0, []⟩ ⟨5, 1, "hi"⟩ "handler exception"
    (by decide) rfl

/-- Loading a session twice in a row yields the same map and session. -/
theorem getSession_getSession (m : SessionMap) (u now : Int) :
    getSession (getSession m u now).1 u now = getSession m u now := by
  unfold getSession
  cases h : lookupA m u with
  | some s => simp [h]
  | none => simp [h, lookupA_insertA_self]

/-- After `clearSession`, the next `getSession` returns the default idle
session. -/
theorem getSession_clearSession (m : SessionMap) (u now : Int) :
    (getSession (clearSession m u) u now).2 = defaultSession now := by
  unfold getSession clearSession
  rw [lookupA_eraseA_self]

/-- C3: a mid-wizard input rejected by the current step validator leaves the
session map exactly as `getSession` left it (same wizard step, same data) and
emits exactly the validator error message. -/
theorem validation_reprompt_invariant
    (w : Wizard) (m : SessionMap) (userId now : Int) (input : String)
    (wz : WizardState) (st : Step) (err : String)
    (hw : (getSession m userId now).2.wizard = some wz)
    (hname : wz.name = w.name)
    (hstep : w.steps.get? wz.step = some st)
    (hval : st.validate input wz.data = some err) :
    w.handleInput m userId now input
      = some (true, (getSession m userId now).1, [Action.send err]) ∧
    getSession (getSession m userId now).1 userId now = getSession m userId now := by
  refine ⟨?_, getSession_getSession m userId now⟩
  unfold Wizard.handleInput Wizard.handleInputBody
  rw [hw]
  simp only [if_pos hname, hstep, hval]

/-- C3 witness: the order wizard at the quantity step rejects `"abc"` with
the quantity error message, leaving the session untouched. -/
theorem validation_reprompt_invariant_witness :
    orderWizard.handleInput
        [(7, { state := "idle", data := [], lastActivity := 0,
               wizard := some ⟨"order", 1, [("product", Value.str "Widget")]⟩,
               previousState := none })] 7 0 "abc"
      = some (true,
          [(7, { state := "idle", data := [], lastActivity := 0,
                 wizard := some ⟨"order", 1, [("product", Value.str "Widget")]⟩,
                 previousState := none })],
          [Action.send "Please enter a valid number"]) :=
  (validation_reprompt_invariant orderWizard
    [(7, { state := "idle", data := [], lastActivity := 0,
           wizard := some ⟨"order", 1, [("product", Value.str "Widget")]⟩,
           previousState := none })] 7 0 "abc"
    ⟨"order", 1, [("product", Value.str "Widget")]⟩ orderQuantityStep
    "Please enter a valid number" rfl rfl rfl rfl).1

/-- C4: handling the reserved `/cancel` input from any non-idle session
state clears the session, so the next access sees the idle state and the
empty data mapping. -/
theorem cancel_resets_session
    (m : SessionMap) (userId now : Int)
    (_hnonidle : (getSession m userId now).2.state ≠ "idle") :
    (getSession (handleEscapeCommand m userId now "/cancel").1 userId now).2.state = "idle" ∧
    (getSession (handleEscapeCommand m userId now "/cancel").1 userId now).2.data = [] := by
  have h1 : (handleEscapeCommand m userId now "/cancel").1
      = clearSession (getSession m userId now).1 userId := rfl
  rw [h1, getSession_clearSession]
  exact ⟨rfl, rfl⟩

/-- C4 witness: cancelling from a concrete non-idle state. -/
theorem cancel_resets_session_witness :
    (getSession (handleEscapeCommand
        [(7, { state := "awaiting_email", data := [("name", Value.str "Ann")],
               lastActivity := 0, wizard := none, previousState := some "awaiting_name" })]
        7 0 "/cancel").1 7 0).2.state = "idle" ∧
    (getSession (handleEscapeCommand
        [(7, { state := "awaiting_email", data := [("name", Value.str "Ann")],
               lastActivity := 0, wizard := none, previousState := some "awaiting_name" })]
        7 0 "/cancel").1 7 0).2.data = [] :=
  cancel_resets_session
    [(7, { state := "awaiting_email", data := [("name", Value.str "Ann")],
           lastActivity := 0, wizard := none, previousState := some "awaiting_name" })]
    7 0 (by decide)

/-- C5: each reserved escape input (`/cancel`, `/back`, `/help`) makes the
message handler short-circuit to the escape handler — the wizard step logic
never sees it — and afterwards the session data is either exactly the
original data (back/help) or the empty mapping (cancel): the escape input is
never stored as a field value. -/
theorem escape_before_validation
    (w : Wizard) (m : SessionMap) (userId now : Int) (text : String)
    (hesc : text = "/cancel" ∨ text = "/back" ∨ text = "/help") :
    handleMessage w m userId now text = some (handleEscapeCommand m userId now text) ∧
    ((getSession (handleEscapeCommand m userId now text).1 userId now).2.data
        = (getSession m userId now).2.data ∨
      (getSession (handleEscapeCommand m userId now text).1 userId now).2.data = []) := by
  obtain h | h | h := hesc <;> subst h
  · refine ⟨rfl, Or.inr ?_⟩
    have h1 : (handleEscapeCommand m userId now "/cancel").1
        = clearSession (getSession m userId now).1 userId := rfl
    rw [h1, getSession_clearSession]
    rfl
  · refine ⟨rfl, ?_⟩
    have hred : handleEscapeCommand m userId now "/back"
        = (match (getSession m userId now).2.previousState with
           | some prev =>
             (insertA (getSession m userId now).1 userId
                 { (getSession m userId now).2 with state := prev },
               [Action.promptState prev])
           | none => ((getSession m userId now).1, [])) := rfl
    cases hp : (getSession m userId now).2.previousState with
    | some prev =>
      left
      rw [hred, hp]
      show (getSession (insertA (getSession m userId now).1 userId
          { (getSession m userId now).2 with state := prev }) userId now).2.data
        = (getSession m userId now).2.data
      unfold getSession
      rw [lookupA_insertA_self]
    | none =>
      left
      rw [hred, hp]
      show (getSession (getSession m userId now).1 userId now).2.data
        = (getSession m userId now).2.data
      rw [getSession_getSession]
  · refine ⟨rfl, Or.inl ?_⟩
    have h1 : (handleEscapeCommand m userId now "/help").1
        = (getSession m userId now).1 := rfl
    rw [h1, getSession_getSession]

/-- C5 witness: `/back` from a recorded previous state short-circuits and
leaves the stored data untouched. -/
theorem escape_before_validation_witness :
    handleMessage orderWizard
        [(7, { state := "awaiting_email", data := [("name", Value.str "Ann")],
               lastActivity := 0, wizard := none, previousState := some "awaiting_name" })]
        7 0 "/back"
      = some (handleEscapeCommand
          [(7, { state := "awaiting_email", data := [("name", Value.str "Ann")],
                 lastActivity := 0, wizard := none, previousState := some "awaiting_name" })]
          7 0 "/back") ∧
    ((getSession (handleEscapeCommand
          [(7, { state := "awaiting_email", data := [("name", Value.str "Ann")],
                 lastActivity := 0, wizard := none, previousState := some "awaiting_name" })]
          7 0 "/back").1 7 0).2.data
        = (getSession
            [(7, { state := "awaiting_email", data := [("name", Value.str "Ann")],
                   lastActivity := 0, wizard := none, previousState := some "awaiting_name" })]
            7 0).2.data ∨
      (getSession (handleEscapeCommand
          [(7, { state := "awaiting_email", data := [("name", Value.str "Ann")],
                 lastActivity := 0, wizard := none, previousState := some "awaiting_name" })]
          7 0 "/back").1 7 0).2.data = []) :=
  escape_before_validation orderWizard
    [(7, { state := "awaiting_email", data := [("name", Value.str "Ann")],
           lastActivity := 0, wizard := none, previousState := some "awaiting_name" })]
    7 0 "/back" (Or.inr (Or.inl rfl))

/-- C6 counterexample: after `/order`, `"Widget"`, `"abc"`, `"3"` the session
is still mid-wizard at the third (address) step and the last response is the
address prompt — no completion action is emitted and the conversation is not
back at rest, contrary to the claimed two-step scenario. -/
theorem order_scenario_counterexample :
    runSteps 7 1000 [] ["/order", "Widget", "abc", "3"]
      = some ([(7, { state := "idle", data := [], lastActivity := 1000,
                     wizard := some ⟨"order", 2,
                       [("product", Value.str "Widget"), ("quantity", Value.int 3)]⟩,
                     previousState := none })],
          [Action.send "What is your delivery address?"]) := rfl

/-- C6 amended: the order wizard has three steps (product, quantity,
address).  `/order` starts it at step 0 with the product prompt; `"Widget"`
advances to step 1 with data `product = "Widget"`; `"abc"` re-prompts with
the quantity error and changes nothing; `"3"` advances to step 2 (address
prompt) with `quantity = 3`; only a valid address (longer than 10
characters) completes the wizard, emitting the completion carrying product,
quantity and address. -/
theorem order_scenario_amended :
    runSteps 7 1000 [] ["/order"]
      = some ([(7, { state := "idle", data := [], lastActivity := 1000,
                     wizard := some ⟨"order", 0, []⟩, previousState := none })],
          [Action.send "What product do you want to order?"]) ∧
    runSteps 7 1000 [] ["/order", "Widget"]
      = some ([(7, { state := "idle", data := [], lastActivity := 1000,
                     wizard := some ⟨"order", 1, [("product", Value.str "Widget")]⟩,
                     previousState := none })],
          [Action.send "How many Widget do you want?"]) ∧
    runSteps 7 1000 [] ["/order", "Widget", "abc"]
      = some ([(7, { state := "idle", data := [], lastActivity := 1000,
                     wizard := some ⟨"order", 1, [("product", Value.str "Widget")]⟩,
                     previousState := none })],
          [Action.send "Please enter a valid number"]) ∧
    runSteps 7 1000 [] ["/order", "Widget", "abc", "3"]
      = some ([(7, { state := "idle", data := [], lastActivity := 1000,
                     wizard := some ⟨"order", 2,
                       [("product", Value.str "Widget"), ("quantity", Value.int 3)]⟩,
                     previousState := none })],
          [Action.send "What is your delivery address?"]) ∧
    runSteps 7 1000 [] ["/order", "Widget", "abc", "3", "221B Baker Street"]
      = some ([(7, { state := "idle", data := [], lastActivity := 1000,
                     wizard := none, previousState := none })],
          [Action.complete [("product", Value.str "Widget"), ("quantity", Value.int 3),
            ("address", Value.str "221B Baker Street")]]) :=
  ⟨rfl, rfl, rfl, rfl, rfl⟩

/-- A concrete session used to exercise the store. -/
def sessionExA : Session :=
  { state := "awaiting_name", data := [("name", Value.str "Ann")], lastActivity := 0,
    wizard := none, previousState := none }

/-- A second concrete session used to exercise the store. -/
def sessionExB : Session :=
  { state := "awaiting_email", data := [("email", Value.str "ann@example.com")],
    lastActivity := 0, wizard := none, previousState := none }

/-- C7 counterexample: two writes of the same key racing from the same read
both succeed — `saveSession` takes no expected version and never reports a
conflict — and the later write fully overwrites the stored session. -/
theorem version_conflict_counterexample :
    (saveSession [] 7 sessionExA 100).2 = SaveResult.ok ∧
    (saveSession (saveSession [] 7 sessionExA 100).1 7 sessionExB 200).2 = SaveResult.ok ∧
    lookupA (saveSession (saveSession [] 7 sessionExA 100).1 7 sessionExB 200).1 7
      = some ⟨{ sessionExB with lastActivity := 200 }, 200⟩ := by
  decide

/-- C7 amended: `saveSession` is an unconditional last-write-wins overwrite:
for any two writes to the same key, both return success, the later write
fully replaces the stored entry, and nothing of the earlier write survives —
no conflict is ever reported. -/
theorem save_session_last_write_wins
    (store : RedisStore) (userId : Int) (sa sb : Session) (ta tb : Int) :
    (saveSession store userId sa ta).2 = SaveResult.ok ∧
    (saveSession (saveSession store userId sa ta).1 userId sb tb).2 = SaveResult.ok ∧
    lookupA (saveSession (saveSession store userId sa ta).1 userId sb tb).1 userId
      = some ⟨{ sb with lastActivity := tb }, tb⟩ :=
  ⟨rfl, rfl, lookupA_insertA_self _ _ _⟩

/-- C8: a retry-after wait recorded for chat `a` changes neither the wait
computed for a different chat `b` nor the per-chat token bucket that
`getChatLimiter` returns for `b`: throttling state is held per recipient. -/
theorem rate_isolation
    (h : FloodState) (cl : ChatLimiters) (a b retryAfter now now2 : Int) (q : ℚ)
    (bk : TokenBucket) (hab : a ≠ b) :
    floodWaitTime (onFloodError h a retryAfter now) b now2 = floodWaitTime h b now2 ∧
    (getChatLimiter (insertA cl a bk) b q).2 = (getChatLimiter cl b q).2 := by
  constructor
  · unfold floodWaitTime onFloodError
    rw [lookupA_insertA_ne _ _ _ _ hab]
  · unfold getChatLimiter
    rw [lookupA_insertA_ne _ _ _ _ hab]
    cases hlb : lookupA cl b <;> simp [hlb]

/-- C8 witness: a 35-second flood wait set for chat 1 leaves chat 2's wait
and limiter untouched. -/
theorem rate_isolation_witness :
    floodWaitTime (onFloodError [] 1 35 1000) 2 2000 = floodWaitTime [] 2 2000 ∧
    (getChatLimiter (insertA [] 1 (TokenBucket.init 1 1 0)) 2 0).2
      = (getChatLimiter [] 2 0).2 :=
  rate_isolation [] [] 1 2 35 1000 2000 0 (TokenBucket.init 1 1 0) (by decide)

/-- C9 counterexample: a session inactive for 2000 seconds — within the
claimed 3600-second window — is treated as expired and reset by the
in-memory timeout check, whose window is 30 minutes (1800 seconds). -/
theorem session_expiry_counterexample :
    (2000000 : Int) ≤ 3600 * 1000 ∧
    isSessionExpired sessionExA 2000000 = true ∧
    sessionOnAccess sessionExA 2000000 = defaultSession 2000000 ∧
    sessionOnAccess sessionExA 2000000 ≠ sessionExA := by
  decide

/-- C9 amended: two distinct inactivity windows coexist.  The Redis store
uses a 3600-second TTL: a read more than 3600 s after the last save returns
the default idle session, and a read within 3600 s returns the stored
session unchanged.  The in-memory timeout check instead flags a session as
expired exactly when its inactivity exceeds 1800 s (30 minutes), resetting
it to the default on next access and otherwise only refreshing
`lastActivity`. -/
theorem session_expiry_windows
    (store : RedisStore) (userId now : Int) (e : StoredEntry) (s : Session)
    (hfound : lookupA store userId = some e) :
    (SESSION_TTL * 1000 < now - e.savedAt →
      redisGetSession store userId now = defaultSession now) ∧
    (now - e.savedAt ≤ SESSION_TTL * 1000 →
      redisGetSession store userId now = e.session) ∧
    isSessionExpired s now = decide (1800 * 1000 < now - s.lastActivity) ∧
    (SESSION_TIMEOUT < now - s.lastActivity →
      sessionOnAccess s now = defaultSession now) ∧
    (now - s.lastActivity ≤ SESSION_TIMEOUT →
      sessionOnAccess s now = { s with lastActivity := now }) := by
  refine ⟨?_, ?_, rfl, ?_, ?_⟩
  · intro hexp
    unfold redisGetSession
    rw [hfound]
    show (if now - e.savedAt ≤ SESSION_TTL * 1000 then e.session else defaultSession now)
      = defaultSession now
    rw [if_neg (not_le.mpr hexp)]
  · intro halive
    unfold redisGetSession
    rw [hfound]
    show (if now - e.savedAt ≤ SESSION_TTL * 1000 then e.session else defaultSession now)
      = e.session
    rw [if_pos halive]
  · intro hexp
    unfold sessionOnAccess
    rw [if_pos (by simpa [isSessionExpired] using hexp)]
  · intro halive
    unfold sessionOnAccess
    rw [if_neg (by simpa [isSessionExpired] using not_lt.mpr halive)]

/-- C9 amended witness: a concrete stored entry read while alive and a
concrete session past the 30-minute window. -/
theorem session_expiry_windows_witness :
    (SESSION_TTL * 1000 < (2000000 : Int) - 100 →
      redisGetSession [(7, ⟨sessionExB, 100⟩)] 7 2000000 = defaultSession 2000000) ∧
    ((2000000 : Int) - 100 ≤ SESSION_TTL * 1000 →
      redisGetSession [(7, ⟨sessionExB, 100⟩)] 7 2000000 = sessionExB) ∧
    isSessionExpired sessionExA 2000000 = decide (1800 * 1000 < (2000000 : Int) - sessionExA.lastActivity) ∧
    (SESSION_TIMEOUT < (2000000 : Int) - sessionExA.lastActivity →
      sessionOnAccess sessionExA 2000000 = defaultSession 2000000) ∧
    ((2000000 : Int) - sessionExA.lastActivity ≤ SESSION_TIMEOUT →
      sessionOnAccess sessionExA 2000000 = { sessionExA with lastActivity := 2000000 }) :=
  session_expiry_windows [(7, ⟨sessionExB, 100⟩)] 7 2000000 ⟨sessionExB, 100⟩ sessionExA rfl

/-- C10: with positive capacity and refill rate, a token count within
bounds, a nonnegative request of at most the capacity, and a monotone
clock, the token count stays within `[0, capacity]` after construction,
after a refill, and after a `take`. -/
theorem token_bucket_bounds
    (b : TokenBucket) (count now : ℚ)
    (hcap : 0 < b.capacity) (hrate : 0 < b.refillRate)
    (hlo : 0 ≤ b.tokens) (_hhi : b.tokens ≤ b.capacity)
    (hcount0 : 0 ≤ count) (hcount : count ≤ b.capacity)
    (hmono : b.lastRefill ≤ now) :
    (0 ≤ (TokenBucket.init b.capacity b.refillRate now).tokens ∧
      (TokenBucket.init b.capacity b.refillRate now).tokens ≤ b.capacity) ∧
    (0 ≤ (b.refill now).tokens ∧ (b.refill now).tokens ≤ b.capacity) ∧
    (0 ≤ (b.take count now).1.tokens ∧ (b.take count now).1.tokens ≤ b.capacity) := by
  have hrefill : ∀ t : ℚ, b.lastRefill ≤ t →
      0 ≤ (b.refill t).tokens ∧ (b.refill t).tokens ≤ b.capacity := by
    intro t ht
    unfold TokenBucket.refill
    constructor
    · apply le_min (le_of_lt hcap)
      have h1 : 0 ≤ (t - b.lastRefill) / 1000 * b.refillRate := by
        apply mul_nonneg
        · apply div_nonneg (by linarith) (by norm_num)
        · exact le_of_lt hrate
      linarith
    · exact min_le_left _ _
  refine ⟨⟨le_of_lt hcap, le_refl _⟩, hrefill now hmono, ?_⟩
  unfold TokenBucket.take
  set b1 := b.refill now with hb1
  have hb1lo : 0 ≤ b1.tokens := (hrefill now hmono).1
  have hb1hi : b1.tokens ≤ b.capacity := (hrefill now hmono).2
  have hb1cap : b1.capacity = b.capacity := rfl
  have hb1rate : b1.refillRate = b.refillRate := rfl
  have hb1last : b1.lastRefill = now := rfl
  by_cases hEnough : count ≤ b1.tokens
  · rw [if_pos hEnough]
    constructor
    · simpa using sub_nonneg.mpr hEnough
    · show b1.tokens - count ≤ b.capacity
      linarith
  · rw [if_neg hEnough]
    have hlt : b1.tokens < count := lt_of_not_le hEnough
    have hwait : (count - b1.tokens) / b.refillRate * 1000 / 1000 * b.refillRate
        = count - b1.tokens := by
      field_simp
      ring
    show 0 ≤ (b1.refill (now + (count - b1.tokens) / b.refillRate * 1000)).tokens - count ∧
      (b1.refill (now + (count - b1.tokens) / b.refillRate * 1000)).tokens - count ≤ b.capacity
    unfold TokenBucket.refill
    rw [hb1cap, hb1rate, hb1last]
    have helapsed : now + (count - b1.tokens) / b.refillRate * 1000 - now
        = (count - b1.tokens) / b.refillRate * 1000 := by ring
    rw [helapsed, hwait]
    have hsum : b1.tokens + (count - b1.tokens) = count := by ring
    rw [hsum]
    rw [min_eq_right hcount]
    constructor
    · linarith
    · linarith

/-- C10 witness: the global limiter bucket `TokenBucket(30, 30)` taking one
token right after construction. -/
theorem token_bucket_bounds_witness :
    (0 ≤ (TokenBucket.init (30 : ℚ) 30 0).tokens ∧
      (TokenBucket.init (30 : ℚ) 30 0).tokens ≤ (30 : ℚ)) ∧
    (0 ≤ ((⟨30, 30, 30, 0⟩ : TokenBucket).refill 0).tokens ∧
      ((⟨30, 30, 30, 0⟩ : TokenBucket).refill 0).tokens ≤ (30 : ℚ)) ∧
    (0 ≤ ((⟨30, 30, 30, 0⟩ : TokenBucket).take 1 0).1.tokens ∧
      ((⟨30, 30, 30, 0⟩ : TokenBucket).take 1 0).1.tokens ≤ (30 : ℚ)) :=
  token_bucket_bounds ⟨30, 30, 30, 0⟩ 1 0 (by norm_num) (by norm_num) (by norm_num)
    (by norm_num) (by norm_num) (by norm_num) (by norm_num)

end TelegramBot
